import Mathlib

/-!
# Verification of the walk/fly navigation controller

This development embeds `createWalkFlyControls` from `src/models.ts` (the
navigation controller of the 3d-sandbox viewer) as pure Lean functions over
an explicit state record, and proves the spec's claims about it.

Conventions of the embedding:
* JavaScript numbers are modelled as real numbers `ℝ`.
* The mutable closure variables of `createWalkFlyControls` (movement flags,
  yaw/pitch accumulators, collider list, camera, ...) become the fields of
  one `Controls` record; every event handler and API function becomes a
  function `... → Controls → Controls`.
* three.js library operations used by the controller (`Vector3`,
  `Quaternion`, `Euler` with order `YXZ`, `Raycaster.intersectObjects`) are
  embedded by their three.js source formulas.  In particular three.js keeps
  `camera.rotation` and `camera.quaternion` synchronized, so every write to
  one of them in the model also writes the other through the conversion
  functions.
* `Raycaster.intersectObjects(targets, true)` returns the hits of the
  collider subtrees with `near ≤ distance ≤ far` sorted by ascending
  distance; a collider subtree is therefore abstracted as a function from
  the ray (origin, normalized direction) to the list of its hit distances,
  and `hits[0]` becomes the minimum of the distances that pass the
  near/far filter.
-/

noncomputable section

namespace WalkFly

open Real

/-- A three.js `Vector3`. -/
@[ext] structure Vec3 where
  x : ℝ
  y : ℝ
  z : ℝ

/-- A three.js `Euler` (the controller always uses rotation order YXZ). -/
@[ext] structure Euler3 where
  x : ℝ
  y : ℝ
  z : ℝ

/-- A three.js `Quaternion`; the fields mirror the constructor order
`new Quaternion(x, y, z, w)`. -/
@[ext] structure Quat where
  x : ℝ
  y : ℝ
  z : ℝ
  w : ℝ

namespace Vec3

/-- Componentwise sum, `Vector3.add`. -/
def add (a b : Vec3) : Vec3 := ⟨a.x + b.x, a.y + b.y, a.z + b.z⟩

/-- Componentwise difference, `Vector3.sub`. -/
def sub (a b : Vec3) : Vec3 := ⟨a.x - b.x, a.y - b.y, a.z - b.z⟩

/-- Scalar multiple, `Vector3.multiplyScalar`. -/
def smul (s : ℝ) (a : Vec3) : Vec3 := ⟨s * a.x, s * a.y, s * a.z⟩

/-- Cross product, `Vector3.crossVectors`. -/
def cross (a b : Vec3) : Vec3 :=
  ⟨a.y * b.z - a.z * b.y, a.z * b.x - a.x * b.z, a.x * b.y - a.y * b.x⟩

/-- Squared length, `Vector3.lengthSq`. -/
def lengthSq (a : Vec3) : ℝ := a.x * a.x + a.y * a.y + a.z * a.z

/-- Length, `Vector3.length`. -/
def len (a : Vec3) : ℝ := Real.sqrt (lengthSq a)

/-- `Vector3.normalize`: three.js divides by `length || 1`, so the zero
vector is left unchanged. -/
def normalize3 (a : Vec3) : Vec3 :=
  smul (1 / (if len a = 0 then 1 else len a)) a

end Vec3

/-- The `clamp` helper of `models.ts`:
`Math.max(min, Math.min(max, value))`. -/
def clampR (value lo hi : ℝ) : ℝ := max lo (min hi value)

/-- three.js `Quaternion.multiplyQuaternions a b` (Hamilton product
`a * b`). -/
def quatMul (a b : Quat) : Quat :=
  ⟨a.x * b.w + a.w * b.x + a.y * b.z - a.z * b.y,
   a.y * b.w + a.w * b.y + a.z * b.x - a.x * b.z,
   a.z * b.w + a.w * b.z + a.x * b.y - a.y * b.x,
   a.w * b.w - a.x * b.x - a.y * b.y - a.z * b.z⟩

/-- three.js `Quaternion.setFromEuler` for an euler `(x, y, z)` with order
`YXZ` (the only order the controller uses). -/
def quatFromEulerYXZ (x y z : ℝ) : Quat :=
  ⟨Real.sin (x / 2) * Real.cos (y / 2) * Real.cos (z / 2) +
     Real.cos (x / 2) * Real.sin (y / 2) * Real.sin (z / 2),
   Real.cos (x / 2) * Real.sin (y / 2) * Real.cos (z / 2) -
     Real.sin (x / 2) * Real.cos (y / 2) * Real.sin (z / 2),
   Real.cos (x / 2) * Real.cos (y / 2) * Real.sin (z / 2) -
     Real.sin (x / 2) * Real.sin (y / 2) * Real.cos (z / 2),
   Real.cos (x / 2) * Real.cos (y / 2) * Real.cos (z / 2) +
     Real.sin (x / 2) * Real.sin (y / 2) * Real.sin (z / 2)⟩

/-- three.js `Quaternion.setFromAxisAngle` (axis assumed normalized). -/
def quatFromAxisAngle (axis : Vec3) (angle : ℝ) : Quat :=
  ⟨axis.x * Real.sin (angle / 2), axis.y * Real.sin (angle / 2),
   axis.z * Real.sin (angle / 2), Real.cos (angle / 2)⟩

/-- three.js `Vector3.applyQuaternion`:
`t := 2 * cross(q.xyz, v); v + q.w * t + cross(q.xyz, t)`. -/
def applyQuat (q : Quat) (v : Vec3) : Vec3 :=
  Vec3.add (Vec3.add v (Vec3.smul q.w (Vec3.smul 2 (Vec3.cross ⟨q.x, q.y, q.z⟩ v))))
    (Vec3.cross ⟨q.x, q.y, q.z⟩ (Vec3.smul 2 (Vec3.cross ⟨q.x, q.y, q.z⟩ v)))

/-- JavaScript `Math.atan2`. -/
def atan2 (y x : ℝ) : ℝ :=
  if 0 < x then Real.arctan (y / x)
  else if x < 0 then
    (if 0 ≤ y then Real.arctan (y / x) + Real.pi else Real.arctan (y / x) - Real.pi)
  else
    (if 0 < y then Real.pi / 2 else if y < 0 then -(Real.pi / 2) else 0)

/-- three.js `Euler.setFromQuaternion` with order `YXZ`: build the rotation
matrix of the (unit) quaternion and read the YXZ angles off its entries.
This is how three.js keeps `camera.rotation` in sync after
`camera.quaternion` is written. -/
def eulerFromQuatYXZ (q : Quat) : Euler3 :=
  let m11 := 1 - 2 * (q.y * q.y + q.z * q.z)
  let m13 := 2 * (q.x * q.z + q.w * q.y)
  let m21 := 2 * (q.x * q.y + q.w * q.z)
  let m22 := 1 - 2 * (q.x * q.x + q.z * q.z)
  let m23 := 2 * (q.y * q.z - q.w * q.x)
  let m31 := 2 * (q.x * q.z - q.w * q.y)
  let m33 := 1 - 2 * (q.x * q.x + q.y * q.y)
  if |m23| < 0.9999999 then
    ⟨Real.arcsin (-(clampR m23 (-1) 1)), atan2 m13 m33, atan2 m21 m22⟩
  else
    ⟨Real.arcsin (-(clampR m23 (-1) 1)), atan2 (-m31) m11, 0⟩

/-- The snapshot record returned by `getState` (type `ControlState` in
`models.ts`). -/
structure ControlState where
  flyMode : Bool
  speed : ℝ
  lookSpeed : ℝ
  walkHeight : ℝ
  gyroEnabled : Bool
  gyroAvailable : Bool

/-- The six digital movement flags (the `movement` closure object); the
source stores them as the numbers 0 and 1. -/
structure Movement where
  forward : ℝ
  backward : ℝ
  left : ℝ
  right : ℝ
  up : ℝ
  down : ℝ

/-- The analog `touchMovement` axes written by the movement joystick. -/
structure Touch2 where
  x : ℝ
  z : ℝ

/-- A camera transform: three.js keeps `rotation` (YXZ Euler) and
`quaternion` synchronized, so the model carries both and every write
updates both. -/
structure Camera where
  position : Vec3
  rotation : Euler3
  quaternion : Quat

/-- A `DeviceOrientationEvent` payload; each angle may be `null`. -/
structure DevOrient where
  alpha : Option ℝ
  beta : Option ℝ
  gamma : Option ℝ

/-- A registered collider subtree, abstracted as the hit distances that
`Raycaster.intersectObjects([collider], true)` produces for a given ray
(origin, normalized direction), before the near/far filter. -/
def Collider : Type := Vec3 → Vec3 → List ℝ

/-- Outcome of the platform `DeviceOrientationEvent.requestPermission`
call: resolved granted, resolved non-granted, or rejected (thrown). -/
inductive PermResult
  | granted
  | denied
  | threw
  deriving DecidableEq

/-- The browser environment consulted by `setGyroEnabled`:
whether `requestPermission` exists on `DeviceOrientationEvent`, its
outcome, and the screen orientation angle read by
`handleOrientationChange`. -/
structure GyroEnv where
  hasRequestPermission : Bool
  permission : PermResult
  screenAngle : ℝ

/-- The `event.code` values the key handlers switch on; every other code
falls to the `default` branch. -/
inductive KeyCode
  | keyW
  | keyS
  | keyA
  | keyD
  | arrowUp
  | arrowDown
  | arrowLeft
  | arrowRight
  | space
  | shiftLeft
  | shiftRight
  | unrecognizedKey
  deriving DecidableEq

/-- The six movement axes a key can drive. -/
inductive MoveFlag
  | forward
  | backward
  | left
  | right
  | up
  | down
  deriving DecidableEq

/-- The key table of `onKeyDown` and `onKeyUp`:
W and the up arrow drive `forward`, S and the down arrow `backward`,
A and the left arrow `left`, D and the right arrow `right`,
Space drives `up`, both Shift keys drive `down`. -/
def keyTarget : KeyCode → Option MoveFlag
  | .keyW => some .forward
  | .arrowUp => some .forward
  | .keyS => some .backward
  | .arrowDown => some .backward
  | .keyA => some .left
  | .arrowLeft => some .left
  | .keyD => some .right
  | .arrowRight => some .right
  | .space => some .up
  | .shiftLeft => some .down
  | .shiftRight => some .down
  | .unrecognizedKey => none

/-- Write one movement flag. -/
def setFlag (f : MoveFlag) (v : ℝ) (m : Movement) : Movement :=
  match f with
  | .forward => { m with forward := v }
  | .backward => { m with backward := v }
  | .left => { m with left := v }
  | .right => { m with right := v }
  | .up => { m with up := v }
  | .down => { m with down := v }

/-- Read one movement flag. -/
def flagVal (f : MoveFlag) (m : Movement) : ℝ :=
  match f with
  | .forward => m.forward
  | .backward => m.backward
  | .left => m.left
  | .right => m.right
  | .up => m.up
  | .down => m.down

/-- The whole mutable state captured by the `createWalkFlyControls`
closure, together with the camera it mutates and flags recording which
listeners / DOM elements are currently registered (for `dispose`). -/
structure Controls where
  state : ControlState
  movement : Movement
  touchMovement : Touch2
  colliderTargets : List Collider
  colliderRadius : ℝ
  yaw : ℝ
  pitch : ℝ
  isPointerLocked : Bool
  deviceOrientation : Option DevOrient
  screenOrientation : ℝ
  lookOffsetYaw : ℝ
  lookOffsetPitch : ℝ
  isTouch : Bool
  camera : Camera
  docListenersAttached : Bool
  touchControlsInDom : Bool
  gyroListenersAttached : Bool

/-- The initial closure state built by `createWalkFlyControls camera`:
fly mode on, speed 3, look speed 0.002, walk height 1.6, gyro off,
no colliders, radius 0.35, accumulators seeded from the camera's current
rotation, document listeners attached, touch controls present only on
coarse-pointer devices. -/
def initControls (cam : Camera) (gyroAvailable : Bool) (isTouch : Bool) : Controls where
  state :=
    { flyMode := true, speed := 3, lookSpeed := 0.002, walkHeight := 1.6,
      gyroEnabled := false, gyroAvailable := gyroAvailable }
  movement := ⟨0, 0, 0, 0, 0, 0⟩
  touchMovement := ⟨0, 0⟩
  colliderTargets := []
  colliderRadius := 0.35
  yaw := cam.rotation.y
  pitch := cam.rotation.x
  isPointerLocked := false
  deviceOrientation := none
  screenOrientation := 0
  lookOffsetYaw := 0
  lookOffsetPitch := 0
  isTouch := isTouch
  camera := cam
  docListenersAttached := true
  touchControlsInDom := isTouch
  gyroListenersAttached := false

/-- `updateRotation`: clamp the pitch accumulator to
`[-π/2 + 0.05, π/2 - 0.05]` and write `(pitch, yaw, 0)` to the camera's
YXZ rotation (three.js also syncs the quaternion). -/
def updateRotation (c : Controls) : Controls :=
  let p := clampR c.pitch (-(Real.pi / 2) + 0.05) (Real.pi / 2 - 0.05)
  { c with
      pitch := p,
      camera :=
        { c.camera with
            rotation := ⟨p, c.yaw, 0⟩,
            quaternion := quatFromEulerYXZ p c.yaw 0 } }

/-- `onMouseMove`: ignored unless pointer lock is engaged; ignored while
gyro mode is on; otherwise accumulate the deltas and re-apply the
rotation. -/
def onMouseMove (mx my : ℝ) (c : Controls) : Controls :=
  match c.isPointerLocked with
  | false => c
  | true =>
    match c.state.gyroEnabled with
    | true => c
    | false =>
      updateRotation
        { c with
            yaw := c.yaw - mx * c.state.lookSpeed,
            pitch := c.pitch - my * c.state.lookSpeed }

/-- `onPointerLockChange`: record whether the pointer-lock element is the
controller's DOM element. -/
def onPointerLockChange (locked : Bool) (c : Controls) : Controls :=
  { c with isPointerLocked := locked }

/-- `onKeyDown`: set the mapped flag to 1; unrecognized codes fall through
the `default` branch unchanged. -/
def onKeyDown (k : KeyCode) (c : Controls) : Controls :=
  match keyTarget k with
  | some f => { c with movement := setFlag f 1 c.movement }
  | none => c

/-- `onKeyUp`: set the mapped flag to 0; unrecognized codes are ignored. -/
def onKeyUp (k : KeyCode) (c : Controls) : Controls :=
  match keyTarget k with
  | some f => { c with movement := setFlag f 0 c.movement }
  | none => c

/-- `handleDeviceOrientation`: latch the last sensor event. -/
def handleDeviceOrientation (d : DevOrient) (c : Controls) : Controls :=
  { c with deviceOrientation := some d }

/-- `handleOrientationChange`: record the current screen orientation
angle (the DOM query is abstracted as the `angle` argument). -/
def handleOrientationChange (angle : ℝ) (c : Controls) : Controls :=
  { c with screenOrientation := angle }

/-- The movement joystick `pointermove` handler: normalized displacement
from the pad center, each axis clamped to `[-1, 1]`. -/
def touchMovePad (dx dy radius : ℝ) (c : Controls) : Controls :=
  { c with
      touchMovement :=
        ⟨clampR (dx / radius) (-1) 1, clampR (dy / radius) (-1) 1⟩ }

/-- The movement joystick `pointerup` / `pointercancel` handler: axes snap
to zero. -/
def touchMoveReset (c : Controls) : Controls :=
  { c with touchMovement := ⟨0, 0⟩ }

/-- The look pad `pointermove` handler: while gyro is on the deltas go to
the bounded look offset (pitch offset clamped to `[-π/3, π/3]`), otherwise
to the yaw/pitch accumulators with the 1.5 touch multiplier. -/
def touchLookMove (dx dy : ℝ) (c : Controls) : Controls :=
  match c.state.gyroEnabled with
  | true =>
    { c with
        lookOffsetYaw := c.lookOffsetYaw - dx * c.state.lookSpeed * 1.2,
        lookOffsetPitch :=
          clampR (c.lookOffsetPitch - dy * c.state.lookSpeed * 1.2)
            (-(Real.pi / 3)) (Real.pi / 3) }
  | false =>
    updateRotation
      { c with
          yaw := c.yaw - dx * c.state.lookSpeed * 1.5,
          pitch := c.pitch - dy * c.state.lookSpeed * 1.5 }

/-- `setObjectQuaternion`: the DeviceOrientationControls composition.
Build the YXZ rotation from `(beta, alpha, -gamma)`, post-multiply by the
constant `q1 = (-√½, 0, 0, √½)` (-90° about X, device to world), then by
the screen-orientation compensation about Z. -/
def setObjectQuaternion (alpha beta gamma orient : ℝ) : Quat :=
  quatMul
    (quatMul (quatFromEulerYXZ beta alpha (-gamma))
      ⟨-(Real.sqrt 0.5), 0, 0, Real.sqrt 0.5⟩)
    (quatFromAxisAngle ⟨0, 0, 1⟩ (-orient))

/-- The quaternion the gyro branch of `update` writes to the camera:
sensor angles in radians composed by `setObjectQuaternion`, then the
look-offset rotation multiplied on the right. -/
def fuseTargetQuat (d : DevOrient) (c : Controls) : Quat :=
  quatMul
    (setObjectQuaternion ((d.alpha.getD 0) * Real.pi / 180)
      ((d.beta.getD 0) * Real.pi / 180) ((d.gamma.getD 0) * Real.pi / 180)
      (c.screenOrientation * Real.pi / 180))
    (quatFromEulerYXZ c.lookOffsetPitch c.lookOffsetYaw 0)

/-- The orientation-fusion step at the top of `update`: only acts when
gyro mode is on and a sensor sample has been received; it writes the fused
quaternion to the camera (three.js then syncs the Euler rotation). -/
def fuseOrientation (c : Controls) : Controls :=
  match c.state.gyroEnabled, c.deviceOrientation with
  | true, some d =>
    { c with
        camera :=
          { c.camera with
              quaternion := fuseTargetQuat d c,
              rotation := eulerFromQuatYXZ (fuseTargetQuat d c) } }
  | _, _ => c

/-- `inputX = movement.right - movement.left + touchMovement.x`. -/
def inputX (c : Controls) : ℝ :=
  c.movement.right - c.movement.left + c.touchMovement.x

/-- `inputZ = movement.forward - movement.backward - touchMovement.z`. -/
def inputZ (c : Controls) : ℝ :=
  c.movement.forward - c.movement.backward - c.touchMovement.z

/-- `inputY = movement.up - movement.down`. -/
def inputY (c : Controls) : ℝ :=
  c.movement.up - c.movement.down

/-- Fly-mode forward vector: `(0,0,-1).applyEuler(camera.rotation)` with
the camera's YXZ order. -/
def flyForward (c : Controls) : Vec3 :=
  applyQuat
    (quatFromEulerYXZ c.camera.rotation.x c.camera.rotation.y c.camera.rotation.z)
    ⟨0, 0, -1⟩

/-- Walk-mode forward vector: `camera.getWorldDirection` (the rotated
`(0,0,-1)`, normalized), flattened to the ground plane and renormalized. -/
def walkForward (c : Controls) : Vec3 :=
  let f := Vec3.normalize3 (applyQuat c.camera.quaternion ⟨0, 0, -1⟩)
  Vec3.normalize3 ⟨f.x, 0, f.z⟩

/-- The right basis vector: `cross(forward, (0,1,0)).normalize()`. -/
def rightOf (f : Vec3) : Vec3 :=
  Vec3.normalize3 (Vec3.cross f ⟨0, 1, 0⟩)

/-- The raw (pre-clamp) direction vector accumulated by `update`:
`right * inputX + forward * inputZ`, plus `inputY` on the vertical axis in
fly mode only. -/
def rawDirection (c : Controls) : Vec3 :=
  match c.state.flyMode with
  | true =>
    let f := flyForward c
    let d := Vec3.add (Vec3.smul (inputX c) (rightOf f)) (Vec3.smul (inputZ c) f)
    ⟨d.x, d.y + inputY c, d.z⟩
  | false =>
    let f := walkForward c
    Vec3.add (Vec3.smul (inputX c) (rightOf f)) (Vec3.smul (inputZ c) f)

/-- `if (direction.lengthSq() > 1) direction.normalize()`. -/
def moveDirection (c : Controls) : Vec3 :=
  if 1 < Vec3.lengthSq (rawDirection c) then Vec3.normalize3 (rawDirection c)
  else rawDirection c

/-- The movement-integration step of `update`:
`position += direction * (speed * delta)`, then in walk mode the vertical
coordinate is snapped to `walkHeight`. -/
def moveStep (delta : ℝ) (c : Controls) : Controls :=
  let p := Vec3.add c.camera.position (Vec3.smul (c.state.speed * delta) (moveDirection c))
  { c with
      camera :=
        { c.camera with
            position :=
              match c.state.flyMode with
              | true => p
              | false => ⟨p.x, c.state.walkHeight, p.z⟩ } }

/-- All hit distances of the registered colliders along a ray, before the
near/far filter (`Raycaster.intersectObjects(colliderTargets, true)`
gathers the hits of every subtree). -/
def allHits (targets : List Collider) (origin dir : Vec3) : List ℝ :=
  targets.flatMap fun coll => coll origin dir

/-- The raycaster's near/far filter (`near = 0`,
`far = distance + colliderRadius`). -/
def hitsWithin (far : ℝ) : List ℝ → List ℝ
  | [] => []
  | h :: t => if 0 ≤ h ∧ h ≤ far then h :: hitsWithin far t else hitsWithin far t

/-- The minimum of a hit list: `intersectObjects` sorts hits by ascending
distance, so `hits[0]` is exactly this minimum. -/
def minD : List ℝ → Option ℝ
  | [] => none
  | h :: t =>
    match minD t with
    | none => some h
    | some m => some (min h m)

/-- The collision guard at the bottom of `update`: runs only with a
non-empty collider list and a nonzero frame displacement; casts the ray
from the pre-step position along the normalized displacement with
`far = distance + colliderRadius`, and rolls the position back to the
pre-step value when the nearest filtered hit is closer than
`distance + colliderRadius`. -/
def collideStep (prev : Vec3) (c : Controls) : Controls :=
  match c.colliderTargets with
  | [] => c
  | _ :: _ =>
    let disp := Vec3.sub c.camera.position prev
    let dist := Vec3.len disp
    if 0 < dist then
      match minD (hitsWithin (dist + c.colliderRadius)
          (allHits c.colliderTargets prev (Vec3.normalize3 disp))) with
      | some h =>
        if h < dist + c.colliderRadius then
          { c with camera := { c.camera with position := prev } }
        else c
      | none => c
    else c

/-- The per-frame `update(delta)`: orientation fusion, then movement
integration from the pre-step position, then the collision guard. -/
def update (delta : ℝ) (c : Controls) : Controls :=
  collideStep (fuseOrientation c).camera.position
    (moveStep delta (fuseOrientation c))

/-- `dispose`: remove the document and click listeners, the touch control
DOM element, and the sensor listeners.  Removing an already-removed
listener or DOM node is a no-op, so only the registration flags change. -/
def dispose (c : Controls) : Controls :=
  { c with
      docListenersAttached := false,
      touchControlsInDom := false,
      gyroListenersAttached := false }

/-- `setFlyMode`: record the mode; switching out of fly mode immediately
snaps the vertical position to `walkHeight`. -/
def setFlyMode (enabled : Bool) (c : Controls) : Controls :=
  let c1 := { c with state := { c.state with flyMode := enabled } }
  match enabled with
  | true => c1
  | false =>
    { c1 with
        camera :=
          { c1.camera with
              position :=
                ⟨c1.camera.position.x, c1.state.walkHeight, c1.camera.position.z⟩ } }

/-- `setSpeed`: direct scalar override. -/
def setSpeed (v : ℝ) (c : Controls) : Controls :=
  { c with state := { c.state with speed := v } }

/-- `setLookSpeed`: direct scalar override. -/
def setLookSpeed (v : ℝ) (c : Controls) : Controls :=
  { c with state := { c.state with lookSpeed := v } }

/-- `setColliders`: replace the whole collider list. -/
def setColliders (l : List Collider) (c : Controls) : Controls :=
  { c with colliderTargets := l }

/-- `setColliderRadius`: override the clearance radius. -/
def setColliderRadius (r : ℝ) (c : Controls) : Controls :=
  { c with colliderRadius := r }

/-- The shared tail of `setGyroEnabled` after the availability and
permission gates: record the mode; on enable, refresh the screen
orientation, attach the sensor listeners, capture the camera's current
yaw/pitch as the accumulator baseline and zero the look offset; on
disable, detach the sensor listeners.  Returns the resolved value
(`state.gyroEnabled`). -/
def gyroProceed (enabled : Bool) (env : GyroEnv) (c : Controls) : Controls × Bool :=
  let c1 := { c with state := { c.state with gyroEnabled := enabled } }
  match enabled with
  | true =>
    ({ c1 with
        screenOrientation := env.screenAngle,
        gyroListenersAttached := true,
        yaw := c1.camera.rotation.y,
        pitch := c1.camera.rotation.x,
        lookOffsetYaw := 0,
        lookOffsetPitch := 0 }, true)
  | false => ({ c1 with gyroListenersAttached := false }, false)

/-- `setGyroEnabled`: resolves `false` immediately when the sensor API is
unavailable; when enabling on a platform with a permission gate, a
non-granted or thrown `requestPermission` also resolves `false` and
leaves gyro off; otherwise proceeds with `gyroProceed`. -/
def setGyroEnabled (enabled : Bool) (env : GyroEnv) (c : Controls) : Controls × Bool :=
  match c.state.gyroAvailable with
  | false => ({ c with state := { c.state with gyroEnabled := false } }, false)
  | true =>
    match enabled && env.hasRequestPermission with
    | true =>
      match env.permission with
      | .granted => gyroProceed enabled env c
      | .denied => ({ c with state := { c.state with gyroEnabled := false } }, false)
      | .threw => ({ c with state := { c.state with gyroEnabled := false } }, false)
    | false => gyroProceed enabled env c

/-- `getState`: snapshot copy of the state record. -/
def getState (c : Controls) : ControlState := c.state

/-- A key event stream element. -/
inductive KeyEvt
  | down (k : KeyCode)
  | up (k : KeyCode)

/-- Apply one key event through the corresponding handler. -/
def applyKey (e : KeyEvt) (c : Controls) : Controls :=
  match e with
  | .down k => onKeyDown k c
  | .up k => onKeyUp k c

/-- Fold a key event sequence (oldest first) through the handlers. -/
def applyKeyEvents : List KeyEvt → Controls → Controls
  | [], c => c
  | e :: t, c => applyKeyEvents t (applyKey e c)

/-- The last press/release edge a key event contributes to a flag. -/
def edgeOf (f : MoveFlag) (e : KeyEvt) : Option Bool :=
  match e with
  | .down k => if keyTarget k = some f then some true else none
  | .up k => if keyTarget k = some f then some false else none

/-- The most recent edge among all keys mapped to a flag: `some true` for
a press, `some false` for a release, `none` when no mapped key occurred. -/
def lastEdge (f : MoveFlag) : List KeyEvt → Option Bool
  | [] => none
  | e :: t =>
    match lastEdge f t with
    | some b => some b
    | none => edgeOf f e

/-- Whether a specific key is held at the end of an event sequence
(its most recent own event is a keydown). -/
def heldKey (k : KeyCode) : List KeyEvt → Bool
  | [] => false
  | e :: t =>
    match heldKey' k e with
    | some b => (match heldKeyRest k t with
                 | some b2 => b2
                 | none => b)
    | none => (match heldKeyRest k t with
               | some b2 => b2
               | none => false)
where
  /-- The edge this event contributes to key `k`. -/
  heldKey' (k : KeyCode) (e : KeyEvt) : Option Bool :=
    match e with
    | .down k2 => if k2 = k then some true else none
    | .up k2 => if k2 = k then some false else none
  /-- The most recent edge for key `k` in the rest of the stream. -/
  heldKeyRest (k : KeyCode) : List KeyEvt → Option Bool
    | [] => none
    | e :: t =>
      match heldKeyRest k t with
      | some b => some b
      | none => heldKey' k e

/-- The states an execution of the controller can reach: the initial
closure state followed by any interleaving of event-handler invocations
and public API calls. -/
inductive Reachable : Controls → Prop
  | init (cam : Camera) (gyroAvailable isTouch : Bool) :
      Reachable (initControls cam gyroAvailable isTouch)
  | step_update {c : Controls} (delta : ℝ) :
      Reachable c → Reachable (update delta c)
  | step_mouse {c : Controls} (mx my : ℝ) :
      Reachable c → Reachable (onMouseMove mx my c)
  | step_lock {c : Controls} (locked : Bool) :
      Reachable c → Reachable (onPointerLockChange locked c)
  | step_keyDown {c : Controls} (k : KeyCode) :
      Reachable c → Reachable (onKeyDown k c)
  | step_keyUp {c : Controls} (k : KeyCode) :
      Reachable c → Reachable (onKeyUp k c)
  | step_devOrient {c : Controls} (d : DevOrient) :
      Reachable c → Reachable (handleDeviceOrientation d c)
  | step_orientChange {c : Controls} (angle : ℝ) :
      Reachable c → Reachable (handleOrientationChange angle c)
  | step_touchMove {c : Controls} (dx dy radius : ℝ) :
      Reachable c → Reachable (touchMovePad dx dy radius c)
  | step_touchReset {c : Controls} :
      Reachable c → Reachable (touchMoveReset c)
  | step_touchLook {c : Controls} (dx dy : ℝ) :
      Reachable c → Reachable (touchLookMove dx dy c)
  | step_setFlyMode {c : Controls} (enabled : Bool) :
      Reachable c → Reachable (setFlyMode enabled c)
  | step_setSpeed {c : Controls} (v : ℝ) :
      Reachable c → Reachable (setSpeed v c)
  | step_setLookSpeed {c : Controls} (v : ℝ) :
      Reachable c → Reachable (setLookSpeed v c)
  | step_setColliders {c : Controls} (l : List Collider) :
      Reachable c → Reachable (setColliders l c)
  | step_setColliderRadius {c : Controls} (r : ℝ) :
      Reachable c → Reachable (setColliderRadius r c)
  | step_setGyro {c : Controls} (enabled : Bool) (env : GyroEnv) :
      Reachable c → Reachable (setGyroEnabled enabled env c).1
  | step_dispose {c : Controls} :
      Reachable c → Reachable (dispose c)

/-! ## Frame lemmas: which fields each operation leaves unchanged -/

@[simp] theorem fuse_position (c : Controls) :
    (fuseOrientation c).camera.position = c.camera.position := by
  unfold fuseOrientation; split <;> rfl

@[simp] theorem fuse_state (c : Controls) :
    (fuseOrientation c).state = c.state := by
  unfold fuseOrientation; split <;> rfl

@[simp] theorem fuse_yaw (c : Controls) :
    (fuseOrientation c).yaw = c.yaw := by
  unfold fuseOrientation; split <;> rfl

@[simp] theorem fuse_pitch (c : Controls) :
    (fuseOrientation c).pitch = c.pitch := by
  unfold fuseOrientation; split <;> rfl

@[simp] theorem fuse_movement (c : Controls) :
    (fuseOrientation c).movement = c.movement := by
  unfold fuseOrientation; split <;> rfl

@[simp] theorem fuse_touch (c : Controls) :
    (fuseOrientation c).touchMovement = c.touchMovement := by
  unfold fuseOrientation; split <;> rfl

@[simp] theorem fuse_colliders (c : Controls) :
    (fuseOrientation c).colliderTargets = c.colliderTargets := by
  unfold fuseOrientation; split <;> rfl

@[simp] theorem fuse_radius (c : Controls) :
    (fuseOrientation c).colliderRadius = c.colliderRadius := by
  unfold fuseOrientation; split <;> rfl

@[simp] theorem moveStep_state (delta : ℝ) (c : Controls) :
    (moveStep delta c).state = c.state := rfl

@[simp] theorem moveStep_rotation (delta : ℝ) (c : Controls) :
    (moveStep delta c).camera.rotation = c.camera.rotation := rfl

@[simp] theorem moveStep_quaternion (delta : ℝ) (c : Controls) :
    (moveStep delta c).camera.quaternion = c.camera.quaternion := rfl

@[simp] theorem moveStep_yaw (delta : ℝ) (c : Controls) :
    (moveStep delta c).yaw = c.yaw := rfl

@[simp] theorem moveStep_pitch (delta : ℝ) (c : Controls) :
    (moveStep delta c).pitch = c.pitch := rfl

@[simp] theorem moveStep_colliders (delta : ℝ) (c : Controls) :
    (moveStep delta c).colliderTargets = c.colliderTargets := rfl

@[simp] theorem moveStep_radius (delta : ℝ) (c : Controls) :
    (moveStep delta c).colliderRadius = c.colliderRadius := rfl

@[simp] theorem collideStep_state (prev : Vec3) (c : Controls) :
    (collideStep prev c).state = c.state := by
  unfold collideStep; split
  · rfl
  · dsimp only; split
    · split <;> [skip; rfl]
      split <;> rfl
    · rfl

@[simp] theorem collideStep_rotation (prev : Vec3) (c : Controls) :
    (collideStep prev c).camera.rotation = c.camera.rotation := by
  unfold collideStep; split
  · rfl
  · dsimp only; split
    · split <;> [skip; rfl]
      split <;> rfl
    · rfl

@[simp] theorem collideStep_quaternion (prev : Vec3) (c : Controls) :
    (collideStep prev c).camera.quaternion = c.camera.quaternion := by
  unfold collideStep; split
  · rfl
  · dsimp only; split
    · split <;> [skip; rfl]
      split <;> rfl
    · rfl

@[simp] theorem collideStep_yaw (prev : Vec3) (c : Controls) :
    (collideStep prev c).yaw = c.yaw := by
  unfold collideStep; split
  · rfl
  · dsimp only; split
    · split <;> [skip; rfl]
      split <;> rfl
    · rfl

@[simp] theorem collideStep_pitch (prev : Vec3) (c : Controls) :
    (collideStep prev c).pitch = c.pitch := by
  unfold collideStep; split
  · rfl
  · dsimp only; split
    · split <;> [skip; rfl]
      split <;> rfl
    · rfl

/-- The collision guard either rolls the position back to the pre-step
value or keeps the integrated position: nothing in between. -/
theorem collideStep_position_cases (prev : Vec3) (c : Controls) :
    (collideStep prev c).camera.position = prev ∨
      (collideStep prev c).camera.position = c.camera.position := by
  unfold collideStep; split
  · exact Or.inr rfl
  · dsimp only; split
    · split
      · split
        · exact Or.inl rfl
        · exact Or.inr rfl
      · exact Or.inr rfl
    · exact Or.inr rfl

@[simp] theorem update_state (delta : ℝ) (c : Controls) :
    (update delta c).state = c.state := by
  unfold update; rw [collideStep_state, moveStep_state, fuse_state]

@[simp] theorem update_yaw (delta : ℝ) (c : Controls) :
    (update delta c).yaw = c.yaw := by
  unfold update; rw [collideStep_yaw, moveStep_yaw, fuse_yaw]

@[simp] theorem update_pitch (delta : ℝ) (c : Controls) :
    (update delta c).pitch = c.pitch := by
  unfold update; rw [collideStep_pitch, moveStep_pitch, fuse_pitch]

/-- In walk mode the integration step always lands the camera at
`walkHeight`. -/
theorem moveStep_walk_y (delta : ℝ) (c : Controls)
    (h : c.state.flyMode = false) :
    (moveStep delta c).camera.position.y = c.state.walkHeight := by
  unfold moveStep; rw [h]

@[simp] theorem updateRotation_state (c : Controls) :
    (updateRotation c).state = c.state := rfl

@[simp] theorem updateRotation_position (c : Controls) :
    (updateRotation c).camera.position = c.camera.position := rfl

@[simp] theorem onMouseMove_state (mx my : ℝ) (c : Controls) :
    (onMouseMove mx my c).state = c.state := by
  unfold onMouseMove; split <;> [rfl; skip]; split <;> rfl

@[simp] theorem onMouseMove_position (mx my : ℝ) (c : Controls) :
    (onMouseMove mx my c).camera.position = c.camera.position := by
  unfold onMouseMove; split <;> [rfl; skip]; split <;> rfl

@[simp] theorem onKeyDown_state (k : KeyCode) (c : Controls) :
    (onKeyDown k c).state = c.state := by
  unfold onKeyDown; split <;> rfl

@[simp] theorem onKeyDown_camera (k : KeyCode) (c : Controls) :
    (onKeyDown k c).camera = c.camera := by
  unfold onKeyDown; split <;> rfl

@[simp] theorem onKeyUp_state (k : KeyCode) (c : Controls) :
    (onKeyUp k c).state = c.state := by
  unfold onKeyUp; split <;> rfl

@[simp] theorem onKeyUp_camera (k : KeyCode) (c : Controls) :
    (onKeyUp k c).camera = c.camera := by
  unfold onKeyUp; split <;> rfl

@[simp] theorem touchLookMove_state (dx dy : ℝ) (c : Controls) :
    (touchLookMove dx dy c).state = c.state := by
  unfold touchLookMove; split <;> rfl

@[simp] theorem touchLookMove_position (dx dy : ℝ) (c : Controls) :
    (touchLookMove dx dy c).camera.position = c.camera.position := by
  unfold touchLookMove; split <;> rfl

@[simp] theorem setGyroEnabled_flyMode (enabled : Bool) (env : GyroEnv) (c : Controls) :
    (setGyroEnabled enabled env c).1.state.flyMode = c.state.flyMode := by
  unfold setGyroEnabled gyroProceed; split
  · rfl
  · split
    · split <;> (cases enabled <;> rfl)
    · cases enabled <;> rfl

@[simp] theorem setGyroEnabled_walkHeight (enabled : Bool) (env : GyroEnv) (c : Controls) :
    (setGyroEnabled enabled env c).1.state.walkHeight = c.state.walkHeight := by
  unfold setGyroEnabled gyroProceed; split
  · rfl
  · split
    · split <;> (cases enabled <;> rfl)
    · cases enabled <;> rfl

@[simp] theorem setGyroEnabled_camera (enabled : Bool) (env : GyroEnv) (c : Controls) :
    (setGyroEnabled enabled env c).1.camera = c.camera := by
  unfold setGyroEnabled gyroProceed; split
  · rfl
  · split
    · split <;> (cases enabled <;> rfl)
    · cases enabled <;> rfl

/-! ## The walk-mode invariant over reachable states -/

/-- Walk-mode pinning: whenever fly mode is off, the camera sits exactly
at `walkHeight`. -/
def WalkPinned (c : Controls) : Prop :=
  c.state.flyMode = false → c.camera.position.y = c.state.walkHeight

/-- Every state an execution of the controller can reach satisfies the
walk-mode pinning invariant. -/
theorem reachable_walkPinned {c : Controls} (h : Reachable c) : WalkPinned c := by
  induction h with
  | init cam gyroAvailable isTouch =>
    intro hfly; cases hfly
  | step_update delta _ ih =>
    intro hfly
    rename_i c' _
    rw [update_state] at hfly
    unfold update
    rw [collideStep_state, moveStep_state, fuse_state]
    rcases collideStep_position_cases (fuseOrientation c').camera.position
        (moveStep delta (fuseOrientation c')) with hcase | hcase
    · rw [hcase, fuse_position]
      exact ih hfly
    · rw [hcase,
        moveStep_walk_y delta (fuseOrientation c') (by rw [fuse_state]; exact hfly),
        fuse_state]
  | step_mouse mx my _ ih =>
    intro hfly
    rw [onMouseMove_state] at hfly
    rw [onMouseMove_state, onMouseMove_position]
    exact ih hfly
  | step_lock locked _ ih => exact fun hfly => ih hfly
  | step_keyDown k _ ih =>
    intro hfly
    rw [onKeyDown_state] at hfly
    rw [onKeyDown_state, onKeyDown_camera]
    exact ih hfly
  | step_keyUp k _ ih =>
    intro hfly
    rw [onKeyUp_state] at hfly
    rw [onKeyUp_state, onKeyUp_camera]
    exact ih hfly
  | step_devOrient d _ ih => exact fun hfly => ih hfly
  | step_orientChange angle _ ih => exact fun hfly => ih hfly
  | step_touchMove dx dy radius _ ih => exact fun hfly => ih hfly
  | step_touchReset _ ih => exact fun hfly => ih hfly
  | step_touchLook dx dy _ ih =>
    intro hfly
    rw [touchLookMove_state] at hfly
    rw [touchLookMove_state, touchLookMove_position]
    exact ih hfly
  | step_setFlyMode enabled _ ih =>
    intro hfly
    unfold setFlyMode at hfly ⊢
    cases enabled
    · rfl
    · exact absurd hfly (by simp)
  | step_setSpeed v _ ih => exact fun hfly => ih hfly
  | step_setLookSpeed v _ ih => exact fun hfly => ih hfly
  | step_setColliders l _ ih => exact fun hfly => ih hfly
  | step_setColliderRadius r _ ih => exact fun hfly => ih hfly
  | step_setGyro enabled env _ ih =>
    intro hfly
    rw [setGyroEnabled_flyMode] at hfly
    rw [setGyroEnabled_walkHeight, setGyroEnabled_camera]
    exact ih hfly
  | step_dispose _ ih => exact fun hfly => ih hfly

/-! ## Vector arithmetic lemmas -/

theorem Vec3.lengthSq_nonneg (v : Vec3) : 0 ≤ Vec3.lengthSq v := by
  unfold Vec3.lengthSq
  have := mul_self_nonneg v.x
  have := mul_self_nonneg v.y
  have := mul_self_nonneg v.z
  linarith

theorem Vec3.len_nonneg (v : Vec3) : 0 ≤ Vec3.len v := Real.sqrt_nonneg _

theorem Vec3.sub_self (v : Vec3) : Vec3.sub v v = ⟨0, 0, 0⟩ := by
  unfold Vec3.sub; ext <;> simp

theorem Vec3.len_zero : Vec3.len ⟨0, 0, 0⟩ = 0 := by
  unfold Vec3.len Vec3.lengthSq; norm_num

theorem Vec3.len_smul (s : ℝ) (v : Vec3) :
    Vec3.len (Vec3.smul s v) = |s| * Vec3.len v := by
  unfold Vec3.len Vec3.lengthSq Vec3.smul
  rw [show s * v.x * (s * v.x) + s * v.y * (s * v.y) + s * v.z * (s * v.z) =
      s ^ 2 * (v.x * v.x + v.y * v.y + v.z * v.z) by ring,
    Real.sqrt_mul (sq_nonneg s), Real.sqrt_sq_eq_abs]

theorem Vec3.len_normalize3 (v : Vec3) (h : Vec3.len v ≠ 0) :
    Vec3.len (Vec3.normalize3 v) = 1 := by
  have hpos : 0 < Vec3.len v := lt_of_le_of_ne (Vec3.len_nonneg v) (Ne.symm h)
  unfold Vec3.normalize3
  rw [if_neg h, Vec3.len_smul, abs_of_pos (by positivity), one_div,
    inv_mul_cancel₀ h]

/-- The clamped direction has length at most 1, whatever the inputs. -/
theorem moveDirection_len_le_one (c : Controls) :
    Vec3.len (moveDirection c) ≤ 1 := by
  unfold moveDirection
  split
  · rename_i hgt
    have hlen : Vec3.len (rawDirection c) ≠ 0 := by
      unfold Vec3.len
      intro h0
      have := Real.sqrt_eq_zero (Vec3.lengthSq_nonneg (rawDirection c)) |>.mp h0
      rw [this] at hgt
      linarith
    rw [Vec3.len_normalize3 _ hlen]
  · rename_i hle
    push_neg at hle
    unfold Vec3.len
    calc Real.sqrt (Vec3.lengthSq (rawDirection c)) ≤ Real.sqrt 1 :=
          Real.sqrt_le_sqrt hle
      _ = 1 := Real.sqrt_one

/-! ## Hit-list lemmas for the collision guard -/

theorem minD_eq_none_iff (l : List ℝ) : minD l = none ↔ l = [] := by
  cases l with
  | nil => simp [minD]
  | cons h t =>
    simp only [minD]
    constructor
    · intro hc
      exfalso
      cases hm : minD t <;> rw [hm] at hc <;> cases hc
    · intro hc; cases hc

theorem minD_mem {l : List ℝ} {m : ℝ} (h : minD l = some m) : m ∈ l := by
  induction l generalizing m with
  | nil => cases h
  | cons a t ih =>
    unfold minD at h
    cases hm : minD t with
    | none => rw [hm] at h; cases h; exact List.mem_cons_self a t
    | some m2 =>
      rw [hm] at h
      cases h
      rcases min_cases a m2 with ⟨hmin, _⟩ | ⟨hmin, _⟩
      · rw [hmin]; exact List.mem_cons_self a t
      · rw [hmin]; exact List.mem_cons_of_mem a (ih hm)

theorem minD_le {l : List ℝ} {m x : ℝ} (hx : x ∈ l) (h : minD l = some m) :
    m ≤ x := by
  induction l generalizing m with
  | nil => cases hx
  | cons a t ih =>
    unfold minD at h
    cases hm : minD t with
    | none =>
      rw [hm] at h
      cases h
      rcases List.mem_cons.mp hx with hx | hx
      · exact le_of_eq hx.symm
      · exact absurd ((minD_eq_none_iff t).mp hm ▸ hx) (List.not_mem_nil x)
    | some m2 =>
      rw [hm] at h
      cases h
      rcases List.mem_cons.mp hx with hx | hx
      · exact hx ▸ min_le_left a m2
      · exact le_trans (min_le_right a m2) (ih hx hm)

theorem hitsWithin_mem {far h : ℝ} {l : List ℝ} :
    h ∈ hitsWithin far l ↔ h ∈ l ∧ 0 ≤ h ∧ h ≤ far := by
  induction l with
  | nil => simp [hitsWithin]
  | cons a t ih =>
    unfold hitsWithin
    split
    · rename_i hcond
      simp only [List.mem_cons, ih]
      constructor
      · rintro (rfl | ⟨hmem, hge, hle⟩)
        · exact ⟨Or.inl rfl, hcond⟩
        · exact ⟨Or.inr hmem, hge, hle⟩
      · rintro ⟨rfl | hmem, hge, hle⟩
        · exact Or.inl rfl
        · exact Or.inr ⟨hmem, hge, hle⟩
    · rename_i hcond
      rw [ih]
      simp only [List.mem_cons]
      constructor
      · rintro ⟨hmem, hge, hle⟩
        exact ⟨Or.inr hmem, hge, hle⟩
      · rintro ⟨rfl | hmem, hge, hle⟩
        · exact absurd ⟨hge, hle⟩ hcond
        · exact ⟨hmem, hge, hle⟩

/-! ## Concrete states used by witnesses and counterexamples -/

/-- A camera at the origin looking down the -Z axis (identity rotation). -/
def cam0 : Camera := ⟨⟨0, 0, 0⟩, ⟨0, 0, 0⟩, ⟨0, 0, 0, 1⟩⟩

/-- A `GyroEnv` with no permission gate (non-iOS): enabling succeeds. -/
def envFree : GyroEnv := ⟨false, .granted, 0⟩

/-- The controller right after construction and `setFlyMode(false)`. -/
def walkState : Controls := setFlyMode false (initControls cam0 false false)

/-- The controller after a successful `setGyroEnabled(true)` but before
any device-orientation event. -/
def gyroOnNoSample : Controls :=
  (setGyroEnabled true envFree (initControls cam0 true false)).1

/-! ## C2: walk-mode height pinning -/

/-- C2: for every `update(delta)` call made while `flyMode` is false (in
any reachable controller state), the camera's vertical position equals
`walkHeight` exactly when the call returns — also on frames where the
collision guard rejects the step, because the rolled-back pre-step
position of a reachable walk-mode state already sits at `walkHeight`. -/
theorem walk_update_pins_height (c : Controls) (hr : Reachable c)
    (hwalk : c.state.flyMode = false) (delta : ℝ) :
    (update delta c).camera.position.y = c.state.walkHeight := by
  unfold update
  rcases collideStep_position_cases (fuseOrientation c).camera.position
      (moveStep delta (fuseOrientation c)) with hcase | hcase
  · rw [hcase, fuse_position]
    exact reachable_walkPinned hr hwalk
  · rw [hcase, moveStep_walk_y _ _ (by rw [fuse_state]; exact hwalk), fuse_state]

/-- Witness for C2 at a concrete reachable walk-mode state. -/
theorem walk_update_pins_height_witness :
    (update 1 walkState).camera.position.y = walkState.state.walkHeight :=
  walk_update_pins_height walkState
    (Reachable.step_setFlyMode false (Reachable.init cam0 false false)) rfl 1

/-! ## C6: gyro enable failure paths resolve false -/

/-- C6: `setGyroEnabled(true)` with an unavailable device-orientation API,
or with a permission request that is denied or throws, resolves to `false`
(the model is a total function: the thrown rejection is caught by the
source's `try/catch` and becomes this same return) and leaves
`getState().gyroEnabled` false. -/
theorem gyro_enable_failure_resolves_false (c : Controls) (env : GyroEnv)
    (h : c.state.gyroAvailable = false ∨
      (env.hasRequestPermission = true ∧ env.permission ≠ PermResult.granted)) :
    (setGyroEnabled true env c).2 = false ∧
    (getState (setGyroEnabled true env c).1).gyroEnabled = false := by
  unfold setGyroEnabled getState
  rcases h with h | ⟨h1, h2⟩
  · rw [h]
    exact ⟨rfl, rfl⟩
  · cases hav : c.state.gyroAvailable
    · exact ⟨rfl, rfl⟩
    · rw [h1]
      cases hp : env.permission
      · exact absurd hp h2
      · exact ⟨rfl, rfl⟩
      · exact ⟨rfl, rfl⟩

/-- Witness for C6: a permission denial on a gated platform. -/
theorem gyro_enable_failure_resolves_false_witness :
    (setGyroEnabled true ⟨true, .denied, 0⟩ (initControls cam0 true false)).2 = false ∧
    (getState (setGyroEnabled true ⟨true, .denied, 0⟩
        (initControls cam0 true false)).1).gyroEnabled = false :=
  gyro_enable_failure_resolves_false _ _ (Or.inr ⟨rfl, by decide⟩)

/-! ## C8: mouse look and gyro are mutually exclusive -/

/-- C8: while `gyroEnabled` is true a mouse-move event leaves the whole
controller state (accumulators and camera rotation included) unchanged;
with gyro off, mouse deltas are ignored without pointer lock and are
applied through `updateRotation` exactly when pointer lock is engaged. -/
theorem mouse_look_gyro_exclusive (c : Controls) (mx my : ℝ) :
    (c.state.gyroEnabled = true → onMouseMove mx my c = c) ∧
    (c.isPointerLocked = false → onMouseMove mx my c = c) ∧
    (c.isPointerLocked = true → c.state.gyroEnabled = false →
      onMouseMove mx my c =
        updateRotation
          { c with
              yaw := c.yaw - mx * c.state.lookSpeed,
              pitch := c.pitch - my * c.state.lookSpeed }) := by
  refine ⟨fun hg => ?_, fun hl => ?_, fun hl hg => ?_⟩ <;> unfold onMouseMove
  · cases hlock : c.isPointerLocked
    · rfl
    · rw [hg]
  · rw [hl]
  · rw [hl, hg]

/-- Witness for C8: gyro mode swallows a mouse delta; without pointer lock
a mouse delta is ignored. -/
theorem mouse_look_gyro_exclusive_witness :
    onMouseMove 1 1 gyroOnNoSample = gyroOnNoSample ∧
    onMouseMove 1 1 (initControls cam0 false false) = initControls cam0 false false :=
  ⟨(mouse_look_gyro_exclusive gyroOnNoSample 1 1).1 rfl,
   (mouse_look_gyro_exclusive (initControls cam0 false false) 1 1).2.1 rfl⟩

/-! ## C9: dispose is idempotent -/

/-- C9: `dispose` only detaches listeners and removes the touch DOM
element — all modelled as registration flags, since removing an absent
listener or DOM node is a no-op — so a second call is exactly the
identity on the first call's result, and after the first call nothing is
left registered for the second call to remove. -/
theorem dispose_idempotent (c : Controls) :
    dispose (dispose c) = dispose c ∧
    (dispose c).docListenersAttached = false ∧
    (dispose c).touchControlsInDom = false ∧
    (dispose c).gyroListenersAttached = false :=
  ⟨rfl, rfl, rfl, rfl⟩

/-! ## C10: gyro enabled but no sample yet -/

/-- C10: an `update(delta)` call with `gyroEnabled = true` but no stored
device-orientation event skips the orientation-fusion write entirely —
the call equals the movement integration plus collision guard applied
directly, and the camera's quaternion and Euler rotation are unchanged. -/
theorem gyro_no_sample_update (c : Controls) (delta : ℝ)
    (hg : c.state.gyroEnabled = true) (hd : c.deviceOrientation = none) :
    update delta c = collideStep c.camera.position (moveStep delta c) ∧
    (update delta c).camera.rotation = c.camera.rotation ∧
    (update delta c).camera.quaternion = c.camera.quaternion := by
  have hfuse : fuseOrientation c = c := by
    unfold fuseOrientation; rw [hg, hd]
  refine ⟨?_, ?_, ?_⟩ <;> unfold update <;> rw [hfuse]
  · rw [collideStep_rotation, moveStep_rotation]
  · rw [collideStep_quaternion, moveStep_quaternion]

/-- Witness for C10 at the post-enable, pre-sample state. -/
theorem gyro_no_sample_update_witness :
    update 1 gyroOnNoSample =
      collideStep gyroOnNoSample.camera.position (moveStep 1 gyroOnNoSample) ∧
    (update 1 gyroOnNoSample).camera.rotation = gyroOnNoSample.camera.rotation ∧
    (update 1 gyroOnNoSample).camera.quaternion = gyroOnNoSample.camera.quaternion :=
  gyro_no_sample_update gyroOnNoSample 1 rfl rfl

/-! ## C5: frame displacement never exceeds speed * delta -/

/-- Bounding the length of a displacement whose x/z components are scaled
direction components and whose y component is dominated by the scaled
direction's y component. -/
theorem len_vec_bound (k b : ℝ) (d : Vec3)
    (hb : b * b ≤ (k * d.y) * (k * d.y)) :
    Vec3.len ⟨k * d.x, b, k * d.z⟩ ≤ |k| * Vec3.len d := by
  unfold Vec3.len Vec3.lengthSq
  rw [show |k| = Real.sqrt (k ^ 2) from (Real.sqrt_sq_eq_abs k).symm,
    ← Real.sqrt_mul (sq_nonneg k)]
  apply Real.sqrt_le_sqrt
  dsimp only
  have hexp : k ^ 2 * (d.x * d.x + d.y * d.y + d.z * d.z) =
      k * d.x * (k * d.x) + (k * d.y) * (k * d.y) + k * d.z * (k * d.z) := by
    ring
  linarith

/-- Fly-mode frame displacement: exactly the scaled direction. -/
theorem fly_disp_eq (P : Vec3) (k : ℝ) (d : Vec3) :
    Vec3.sub (Vec3.add P (Vec3.smul k d)) P = ⟨k * d.x, k * d.y, k * d.z⟩ := by
  unfold Vec3.add Vec3.smul Vec3.sub
  ext <;> dsimp <;> ring

/-- Walk-mode frame displacement from a height-pinned position: the
scaled direction flattened to the ground plane. -/
theorem walk_disp_eq (P : Vec3) (k W : ℝ) (d : Vec3) (hPy : P.y = W) :
    Vec3.sub ⟨(Vec3.add P (Vec3.smul k d)).x, W, (Vec3.add P (Vec3.smul k d)).z⟩ P =
      ⟨k * d.x, 0, k * d.z⟩ := by
  unfold Vec3.add Vec3.smul Vec3.sub
  ext <;> dsimp
  · ring
  · rw [hPy]; ring
  · ring

/-- Evaluation helper: the zero euler gives the identity quaternion. -/
theorem quatFromEulerYXZ_zero : quatFromEulerYXZ 0 0 0 = ⟨0, 0, 0, 1⟩ := by
  simp [quatFromEulerYXZ]

/-- Evaluation helper: the identity quaternion fixes every vector. -/
theorem applyQuat_one (v : Vec3) : applyQuat ⟨0, 0, 0, 1⟩ v = v := by
  ext <;> simp [applyQuat, Vec3.cross, Vec3.smul, Vec3.add]

/-- Evaluation helper: with identity camera rotation, the fly-mode forward
vector is `(0, 0, -1)`. -/
theorem flyForward_id (c : Controls) (h : c.camera.rotation = ⟨0, 0, 0⟩) :
    flyForward c = ⟨0, 0, -1⟩ := by
  unfold flyForward
  rw [h]
  exact (quatFromEulerYXZ_zero ▸ applyQuat_one ⟨0, 0, -1⟩)

/-- Evaluation helper: the right vector of `(0, 0, -1)` is `(1, 0, 0)`. -/
theorem rightOf_mz : rightOf ⟨0, 0, -1⟩ = ⟨1, 0, 0⟩ := by
  unfold rightOf
  rw [show Vec3.cross ⟨0, 0, -1⟩ ⟨0, 1, 0⟩ = ⟨1, 0, 0⟩ from by
    simp [Vec3.cross]]
  have hlen : Vec3.len ⟨1, 0, 0⟩ = 1 := by
    unfold Vec3.len Vec3.lengthSq; norm_num
  unfold Vec3.normalize3
  rw [hlen, if_neg one_ne_zero]
  simp [Vec3.smul]

/-- The forward+right diagonal state: fly mode, zero rotation, W and D
held, default speed 3, no colliders. -/
def diagState : Controls :=
  onKeyDown .keyD (onKeyDown .keyW (initControls cam0 false false))

/-- C5: the combined direction vector is unit-clamped before scaling, so
for every `update(delta)` call from a reachable state (with the
nonnegative speed and frame time that the integrator is specified over)
the frame displacement magnitude is at most `speed * delta`; and in the
diagonal scenario (forward and right held, speed 3, delta 1) the
displacement magnitude is exactly 3, not `3 * sqrt 2`. -/
theorem displacement_le_speed_delta :
    (∀ (c : Controls), Reachable c → ∀ (delta : ℝ), 0 ≤ c.state.speed →
      0 ≤ delta →
      Vec3.len (Vec3.sub (update delta c).camera.position c.camera.position) ≤
        c.state.speed * delta) ∧
    Vec3.len (Vec3.sub (update 1 diagState).camera.position
      diagState.camera.position) = 3 := by
  constructor
  · intro c hr delta hs hd
    have hk : 0 ≤ c.state.speed * delta := mul_nonneg hs hd
    have hd1 : Vec3.len (moveDirection (fuseOrientation c)) ≤ 1 :=
      moveDirection_len_le_one _
    unfold update
    rcases collideStep_position_cases (fuseOrientation c).camera.position
        (moveStep delta (fuseOrientation c)) with hcase | hcase
    · rw [hcase, fuse_position, Vec3.sub_self, Vec3.len_zero]
      exact hk
    · rw [hcase]
      simp only [moveStep, fuse_state, fuse_position]
      cases hf : c.state.flyMode <;> dsimp only
      · -- walk mode: the y coordinate snaps back to walkHeight
        have hPy : c.camera.position.y = c.state.walkHeight :=
          reachable_walkPinned hr hf
        rw [walk_disp_eq _ _ _ _ hPy]
        have hb0 : (0 : ℝ) * 0 ≤
            (c.state.speed * delta * (moveDirection (fuseOrientation c)).y) *
              (c.state.speed * delta * (moveDirection (fuseOrientation c)).y) := by
          simpa using mul_self_nonneg
            (c.state.speed * delta * (moveDirection (fuseOrientation c)).y)
        have h1 := len_vec_bound (c.state.speed * delta) 0
          (moveDirection (fuseOrientation c)) hb0
        have h2 : |c.state.speed * delta| *
              Vec3.len (moveDirection (fuseOrientation c)) ≤
            |c.state.speed * delta| * 1 :=
          mul_le_mul_of_nonneg_left hd1 (abs_nonneg _)
        have h3 : |c.state.speed * delta| * 1 = c.state.speed * delta := by
          rw [mul_one, abs_of_nonneg hk]
        exact le_trans h1 (le_trans h2 (le_of_eq h3))
      · -- fly mode: the displacement is exactly the scaled direction
        rw [fly_disp_eq]
        have h1 := len_vec_bound (c.state.speed * delta)
          (c.state.speed * delta * (moveDirection (fuseOrientation c)).y)
          (moveDirection (fuseOrientation c)) le_rfl
        have h2 : |c.state.speed * delta| *
              Vec3.len (moveDirection (fuseOrientation c)) ≤
            |c.state.speed * delta| * 1 :=
          mul_le_mul_of_nonneg_left hd1 (abs_nonneg _)
        have h3 : |c.state.speed * delta| * 1 = c.state.speed * delta := by
          rw [mul_one, abs_of_nonneg hk]
        exact le_trans h1 (le_trans h2 (le_of_eq h3))
  · -- the diagonal scenario
    have h2ne : Real.sqrt 2 ≠ 0 := by positivity
    have h22 : Real.sqrt 2 * Real.sqrt 2 = 2 := Real.mul_self_sqrt (by norm_num)
    have key : (1 / Real.sqrt 2) * (1 / Real.sqrt 2) = 1 / 2 := by
      rw [div_mul_div_comm, one_mul, h22]
    have hraw : rawDirection diagState = ⟨1, 0, -1⟩ := by
      unfold rawDirection
      rw [show diagState.state.flyMode = true from rfl]
      dsimp only
      rw [flyForward_id diagState rfl, rightOf_mz,
        show inputX diagState = 1 from by
          unfold inputX
          norm_num [show diagState.movement.right = (1 : ℝ) from rfl,
            show diagState.movement.left = (0 : ℝ) from rfl,
            show diagState.touchMovement.x = (0 : ℝ) from rfl],
        show inputZ diagState = 1 from by
          unfold inputZ
          norm_num [show diagState.movement.forward = (1 : ℝ) from rfl,
            show diagState.movement.backward = (0 : ℝ) from rfl,
            show diagState.touchMovement.z = (0 : ℝ) from rfl],
        show inputY diagState = 0 from by
          unfold inputY
          norm_num [show diagState.movement.up = (0 : ℝ) from rfl,
            show diagState.movement.down = (0 : ℝ) from rfl]]
      norm_num [Vec3.add, Vec3.smul]
    have hsq2 : Vec3.lengthSq ⟨1, 0, -1⟩ = 2 := by
      unfold Vec3.lengthSq; norm_num
    have hmd : moveDirection diagState =
        ⟨1 / Real.sqrt 2, 0, -(1 / Real.sqrt 2)⟩ := by
      unfold moveDirection
      rw [hraw, hsq2, if_pos (by norm_num : (1 : ℝ) < 2)]
      unfold Vec3.normalize3
      rw [show Vec3.len ⟨1, 0, -1⟩ = Real.sqrt 2 from by
          unfold Vec3.len; rw [hsq2],
        if_neg h2ne]
      norm_num [Vec3.smul]
    have hfuse : fuseOrientation diagState = diagState := rfl
    have hpos : (update 1 diagState).camera.position =
        ⟨3 * (1 / Real.sqrt 2), 0, 3 * (-(1 / Real.sqrt 2))⟩ := by
      unfold update
      rw [hfuse,
        show collideStep diagState.camera.position (moveStep 1 diagState) =
          moveStep 1 diagState from rfl]
      simp only [moveStep]
      rw [show diagState.state.flyMode = true from rfl]
      dsimp only
      rw [hmd, show diagState.state.speed = (3 : ℝ) from rfl,
        show diagState.camera.position = (⟨0, 0, 0⟩ : Vec3) from rfl]
      unfold Vec3.add Vec3.smul
      ext <;> dsimp <;> ring
    rw [hpos, show diagState.camera.position = (⟨0, 0, 0⟩ : Vec3) from rfl,
      show Vec3.sub (⟨3 * (1 / Real.sqrt 2), 0, 3 * (-(1 / Real.sqrt 2))⟩ : Vec3)
          ⟨0, 0, 0⟩ =
        ⟨3 * (1 / Real.sqrt 2), 0, 3 * (-(1 / Real.sqrt 2))⟩ from by
        unfold Vec3.sub; ext <;> dsimp <;> ring]
    unfold Vec3.len
    rw [show Vec3.lengthSq ⟨3 * (1 / Real.sqrt 2), 0, 3 * (-(1 / Real.sqrt 2))⟩ =
        9 from by
        unfold Vec3.lengthSq; dsimp only; linear_combination (18 : ℝ) * key,
      show (9 : ℝ) = 3 ^ 2 by norm_num,
      Real.sqrt_sq (by norm_num : (0 : ℝ) ≤ 3)]

/-- Witness for the quantified part of C5, at the diagonal state (which is
reachable through two key events). -/
theorem displacement_le_speed_delta_witness :
    Vec3.len (Vec3.sub (update 1 diagState).camera.position
      diagState.camera.position) ≤ diagState.state.speed * 1 :=
  displacement_le_speed_delta.1 diagState
    (Reachable.step_keyDown .keyD (Reachable.step_keyDown .keyW
      (Reachable.init cam0 false false)))
    1 (by norm_num [show diagState.state.speed = (3 : ℝ) from rfl]) (by norm_num)

/-! ## C3: the collision guard rejects exactly the too-close steps -/

/-- The frame displacement `movementDelta` of an `update(delta)` call:
integrated position minus pre-step position. -/
def frameDisp (delta : ℝ) (c : Controls) : Vec3 :=
  Vec3.sub (moveStep delta (fuseOrientation c)).camera.position
    c.camera.position

/-- The guard's decision, characterized: with a non-empty collider list,
nonnegative hit distances (rays hit in front of the origin) and a nonzero
frame displacement, the step is rolled back to the exact pre-step
position if and only if some collider hit along the cast ray lies closer
than `displacement length + colliderRadius` (equivalently: the nearest
hit does); otherwise the integrated position is kept. -/
theorem collide_reject_iff_aux (c : Controls) (delta : ℝ)
    (htargets : c.colliderTargets ≠ [])
    (hnn : ∀ coll ∈ c.colliderTargets, ∀ o d h, h ∈ coll o d → 0 ≤ h)
    (hdisp : 0 < Vec3.len (frameDisp delta c)) :
    ((update delta c).camera.position = c.camera.position ↔
      ∃ h ∈ allHits c.colliderTargets c.camera.position
          (Vec3.normalize3 (frameDisp delta c)),
        h < Vec3.len (frameDisp delta c) + c.colliderRadius) ∧
    ((¬ ∃ h ∈ allHits c.colliderTargets c.camera.position
          (Vec3.normalize3 (frameDisp delta c)),
        h < Vec3.len (frameDisp delta c) + c.colliderRadius) →
      (update delta c).camera.position =
        (moveStep delta (fuseOrientation c)).camera.position) := by
  unfold frameDisp at hdisp ⊢
  have hne : ¬ (moveStep delta (fuseOrientation c)).camera.position =
      c.camera.position := by
    intro he
    rw [he, Vec3.sub_self, Vec3.len_zero] at hdisp
    exact lt_irrefl 0 hdisp
  unfold update collideStep
  rw [moveStep_colliders, fuse_colliders, moveStep_radius, fuse_radius,
    fuse_position]
  cases hT : c.colliderTargets with
  | nil => exact absurd hT htargets
  | cons t ts =>
    rw [hT] at hnn
    dsimp only
    rw [if_pos hdisp]
    have hnn2 : ∀ h ∈ allHits (t :: ts) c.camera.position
        (Vec3.normalize3 (Vec3.sub
          (moveStep delta (fuseOrientation c)).camera.position
          c.camera.position)), 0 ≤ h := by
      intro h hmem
      rcases List.mem_flatMap.mp hmem with ⟨coll, hcoll, hh⟩
      exact hnn coll hcoll _ _ h hh
    split
    · rename_i h0 hm
      split
      · rename_i hcond
        refine ⟨⟨fun _ => ?_, fun _ => rfl⟩, fun habs => absurd ?_ habs⟩
        · rcases hitsWithin_mem.mp (minD_mem hm) with ⟨hmem2, _, _⟩
          exact ⟨h0, hmem2, hcond⟩
        · rcases hitsWithin_mem.mp (minD_mem hm) with ⟨hmem2, _, _⟩
          exact ⟨h0, hmem2, hcond⟩
      · rename_i hcond
        constructor
        · constructor
          · intro he; exact absurd he hne
          · rintro ⟨h, hmem, hlt⟩
            have hmem2 := hitsWithin_mem.mpr ⟨hmem, hnn2 h hmem, le_of_lt hlt⟩
            exact absurd (lt_of_le_of_lt (minD_le hmem2 hm) hlt) hcond
        · intro _; rfl
    · rename_i hm
      constructor
      · constructor
        · intro he; exact absurd he hne
        · rintro ⟨h, hmem, hlt⟩
          have hmem2 := hitsWithin_mem.mpr ⟨hmem, hnn2 h hmem, le_of_lt hlt⟩
          rw [(minD_eq_none_iff _).mp hm] at hmem2
          exact absurd hmem2 (List.not_mem_nil h)
      · intro _; rfl

/-- A collider whose subtree's only ray hit is at distance 1.0 (the
"plane 1.0 ahead of the camera" of the scenario). -/
def planeCollider : Collider := fun _ _ => [1]

/-- Fly mode at the origin with identity rotation, the plane collider
registered, speed `v`, the forward key held: one `update(1)` attempts a
forward step of length `v` against a hit at distance 1.0 with clearance
radius 0.35. -/
def forwardColliderState (v : ℝ) : Controls :=
  onKeyDown .keyW (setSpeed v (setColliders [planeCollider]
    (initControls cam0 false false)))

/-- The rejected scenario: step length 0.9 (0.9 + 0.35 > 1.0). -/
def rejState : Controls := forwardColliderState 0.9

/-- The accepted scenario: step length 0.5 (0.5 + 0.35 < 1.0). -/
def accState : Controls := forwardColliderState 0.5

theorem forwardColliderState_raw (v : ℝ) :
    rawDirection (forwardColliderState v) = ⟨0, 0, -1⟩ := by
  unfold rawDirection
  rw [show (forwardColliderState v).state.flyMode = true from rfl]
  dsimp only
  rw [flyForward_id (forwardColliderState v) rfl, rightOf_mz,
    show inputX (forwardColliderState v) = 0 from by
      unfold inputX
      norm_num [show (forwardColliderState v).movement.right = (0 : ℝ) from rfl,
        show (forwardColliderState v).movement.left = (0 : ℝ) from rfl,
        show (forwardColliderState v).touchMovement.x = (0 : ℝ) from rfl],
    show inputZ (forwardColliderState v) = 1 from by
      unfold inputZ
      norm_num [show (forwardColliderState v).movement.forward = (1 : ℝ) from rfl,
        show (forwardColliderState v).movement.backward = (0 : ℝ) from rfl,
        show (forwardColliderState v).touchMovement.z = (0 : ℝ) from rfl],
    show inputY (forwardColliderState v) = 0 from by
      unfold inputY
      norm_num [show (forwardColliderState v).movement.up = (0 : ℝ) from rfl,
        show (forwardColliderState v).movement.down = (0 : ℝ) from rfl]]
  norm_num [Vec3.add, Vec3.smul]

theorem forwardColliderState_dir (v : ℝ) :
    moveDirection (forwardColliderState v) = ⟨0, 0, -1⟩ := by
  unfold moveDirection
  rw [forwardColliderState_raw,
    show Vec3.lengthSq ⟨0, 0, -1⟩ = 1 from by unfold Vec3.lengthSq; norm_num,
    if_neg (by norm_num : ¬ (1 : ℝ) < 1)]

theorem forwardColliderState_move (v : ℝ) :
    (moveStep 1 (forwardColliderState v)).camera.position = ⟨0, 0, -v⟩ := by
  simp only [moveStep]
  rw [show (forwardColliderState v).state.flyMode = true from rfl]
  dsimp only
  rw [forwardColliderState_dir,
    show (forwardColliderState v).state.speed = v from rfl,
    show (forwardColliderState v).camera.position = (⟨0, 0, 0⟩ : Vec3) from rfl]
  unfold Vec3.add Vec3.smul
  ext <;> dsimp <;> ring

theorem forwardColliderState_disp (v : ℝ) :
    frameDisp 1 (forwardColliderState v) = ⟨0, 0, -v⟩ := by
  unfold frameDisp
  rw [show fuseOrientation (forwardColliderState v) = forwardColliderState v
      from rfl,
    forwardColliderState_move,
    show (forwardColliderState v).camera.position = (⟨0, 0, 0⟩ : Vec3) from rfl]
  unfold Vec3.sub
  ext <;> dsimp <;> ring

theorem len_negZ (v : ℝ) (hv : 0 ≤ v) : Vec3.len ⟨0, 0, -v⟩ = v := by
  have hsq : Vec3.lengthSq ⟨0, 0, -v⟩ = v ^ 2 := by
    unfold Vec3.lengthSq
    dsimp
    ring
  unfold Vec3.len
  rw [hsq, Real.sqrt_sq hv]

theorem allHits_plane (o d : Vec3) : allHits [planeCollider] o d = [1] := by
  unfold allHits planeCollider
  simp

theorem forwardColliderState_targets_ne (v : ℝ) :
    (forwardColliderState v).colliderTargets ≠ [] := by
  rw [show (forwardColliderState v).colliderTargets = [planeCollider] from rfl]
  simp

theorem forwardColliderState_nonneg (v : ℝ) :
    ∀ coll ∈ (forwardColliderState v).colliderTargets,
      ∀ o d h, h ∈ coll o d → 0 ≤ h := by
  intro coll hc o d h hh
  rw [show (forwardColliderState v).colliderTargets = [planeCollider] from rfl]
    at hc
  rcases List.mem_singleton.mp hc with rfl
  rw [show planeCollider o d = [1] from rfl] at hh
  rcases List.mem_singleton.mp hh with rfl
  norm_num

/-- A hit closer than the bound exists exactly when the nearest hit (the
minimum of the hit list) is closer than the bound. -/
theorem minD_lt_iff (l : List ℝ) (b : ℝ) :
    (∃ h ∈ l, h < b) ↔ (∃ m, minD l = some m ∧ m < b) := by
  constructor
  · rintro ⟨h, hm, hlt⟩
    cases hmd : minD l with
    | none =>
      rw [(minD_eq_none_iff l).mp hmd] at hm
      exact absurd hm (List.not_mem_nil h)
    | some m => exact ⟨m, rfl, lt_of_le_of_lt (minD_le hm hmd) hlt⟩
  · rintro ⟨m, hmd, hlt⟩
    exact ⟨m, minD_mem hmd, hlt⟩

/-- C3: with at least one collider and a nonzero frame displacement, the
step is rejected (position rolled back atomically to the exact pre-step
position) if and only if the nearest registered hit along the normalized
displacement direction exists at a distance less than
`displacement length + clearance radius`; and in the concrete plane
scenario (hit at distance 1.0, radius 0.35) a forward step of length 0.9
is rejected while a step of length 0.5 is accepted (the camera advances
to `(0, 0, -0.5)`). -/
theorem collision_guard_reject_iff :
    (∀ (c : Controls) (delta : ℝ),
      c.colliderTargets ≠ [] →
      (∀ coll ∈ c.colliderTargets, ∀ o d h, h ∈ coll o d → 0 ≤ h) →
      0 < Vec3.len (frameDisp delta c) →
      ((update delta c).camera.position = c.camera.position ↔
        ∃ m, minD (allHits c.colliderTargets c.camera.position
            (Vec3.normalize3 (frameDisp delta c))) = some m ∧
          m < Vec3.len (frameDisp delta c) + c.colliderRadius)) ∧
    (update 1 rejState).camera.position = rejState.camera.position ∧
    (update 1 accState).camera.position = ⟨0, 0, -0.5⟩ := by
  refine ⟨fun c delta ht hnn hd => ?_, ?_, ?_⟩
  · rw [(collide_reject_iff_aux c delta ht hnn hd).1]
    exact minD_lt_iff _ _
  · -- rejection: 1 < 0.9 + 0.35
    have hd : 0 < Vec3.len (frameDisp 1 rejState) := by
      rw [show rejState = forwardColliderState 0.9 from rfl,
        forwardColliderState_disp, len_negZ 0.9 (by norm_num)]
      norm_num
    refine ((collide_reject_iff_aux rejState 1 (forwardColliderState_targets_ne 0.9)
      (forwardColliderState_nonneg 0.9) hd).1).mpr ?_
    refine ⟨1, ?_, ?_⟩
    · rw [show rejState.colliderTargets = [planeCollider] from rfl, allHits_plane]
      simp
    · rw [show rejState = forwardColliderState 0.9 from rfl,
        forwardColliderState_disp, len_negZ 0.9 (by norm_num),
        show (forwardColliderState 0.9).colliderRadius = 0.35 from rfl]
      norm_num
  · -- acceptance: no hit within 0.5 + 0.35
    have hd : 0 < Vec3.len (frameDisp 1 accState) := by
      rw [show accState = forwardColliderState 0.5 from rfl,
        forwardColliderState_disp, len_negZ 0.5 (by norm_num)]
      norm_num
    have hkeep := (collide_reject_iff_aux accState 1
      (forwardColliderState_targets_ne 0.5)
      (forwardColliderState_nonneg 0.5) hd).2
    rw [show accState = forwardColliderState 0.5 from rfl] at hkeep ⊢
    rw [hkeep ?_, show fuseOrientation (forwardColliderState 0.5) =
        forwardColliderState 0.5 from rfl, forwardColliderState_move]
    rintro ⟨h, hmem, hlt⟩
    rw [show (forwardColliderState 0.5).colliderTargets = [planeCollider]
        from rfl, allHits_plane] at hmem
    rcases List.mem_singleton.mp hmem with rfl
    rw [forwardColliderState_disp, len_negZ 0.5 (by norm_num),
      show (forwardColliderState 0.5).colliderRadius = 0.35 from rfl] at hlt
    norm_num at hlt

/-- Witness for the quantified part of C3 at the rejected scenario. -/
theorem collision_guard_reject_iff_witness :
    (update 1 rejState).camera.position = rejState.camera.position ↔
      ∃ m, minD (allHits rejState.colliderTargets rejState.camera.position
          (Vec3.normalize3 (frameDisp 1 rejState))) = some m ∧
        m < Vec3.len (frameDisp 1 rejState) + rejState.colliderRadius :=
  collision_guard_reject_iff.1 rejState 1 (forwardColliderState_targets_ne 0.9)
    (forwardColliderState_nonneg 0.9)
    (by rw [show rejState = forwardColliderState 0.9 from rfl,
          forwardColliderState_disp, len_negZ 0.9 (by norm_num)]
        norm_num)

/-! ## C7: key flags, last edge wins -/

theorem flagVal_setFlag_same (f : MoveFlag) (v : ℝ) (m : Movement) :
    flagVal f (setFlag f v m) = v := by
  cases f <;> rfl

theorem flagVal_setFlag_other (f f2 : MoveFlag) (hne : f2 ≠ f) (v : ℝ)
    (m : Movement) : flagVal f (setFlag f2 v m) = flagVal f m := by
  cases f2 <;> cases f <;> first | rfl | exact absurd rfl hne

/-- The effect of a single key event on one flag: a mapped press writes 1,
a mapped release writes 0, anything else leaves the flag alone. -/
theorem flagVal_applyKey (f : MoveFlag) (e : KeyEvt) (c : Controls) :
    flagVal f (applyKey e c).movement =
      (match edgeOf f e with
       | some true => 1
       | some false => 0
       | none => flagVal f c.movement) := by
  cases e with
  | down k =>
    unfold applyKey onKeyDown edgeOf
    dsimp only
    cases hk : keyTarget k with
    | none => simp [hk]
    | some f2 =>
      dsimp only
      by_cases hf : f2 = f
      · subst hf
        rw [if_pos rfl]
        exact flagVal_setFlag_same f2 1 c.movement
      · rw [if_neg (by simpa using hf)]
        exact flagVal_setFlag_other f f2 hf 1 c.movement
  | up k =>
    unfold applyKey onKeyUp edgeOf
    dsimp only
    cases hk : keyTarget k with
    | none => simp [hk]
    | some f2 =>
      dsimp only
      by_cases hf : f2 = f
      · subst hf
        rw [if_pos rfl]
        exact flagVal_setFlag_same f2 0 c.movement
      · rw [if_neg (by simpa using hf)]
        exact flagVal_setFlag_other f f2 hf 0 c.movement

/-- The last-edge characterization of a flag after an event stream. -/
theorem applyKeyEvents_flag (f : MoveFlag) (seq : List KeyEvt) (c : Controls) :
    flagVal f (applyKeyEvents seq c).movement =
      (match lastEdge f seq with
       | some true => 1
       | some false => 0
       | none => flagVal f c.movement) := by
  induction seq generalizing c with
  | nil => rfl
  | cons e t ih =>
    rw [show applyKeyEvents (e :: t) c = applyKeyEvents t (applyKey e c)
        from rfl,
      ih (applyKey e c),
      show lastEdge f (e :: t) =
        (match lastEdge f t with
         | some b => some b
         | none => edgeOf f e) from rfl]
    cases hl : lastEdge f t with
    | some b => cases b <;> rfl
    | none =>
      dsimp only
      exact flagVal_applyKey f e c

/-- C7 (amended): each movement flag reflects the most recent
press/release edge among the keys mapped to it (the two keys aliased to
one axis are not tracked independently); the per-frame input vector is
the stated arithmetic sum of flags and touch axes; unrecognized keys
leave the state unchanged. -/
theorem key_flags_last_edge :
    (∀ (f : MoveFlag) (seq : List KeyEvt) (c : Controls),
      flagVal f (applyKeyEvents seq c).movement =
        (match lastEdge f seq with
         | some true => 1
         | some false => 0
         | none => flagVal f c.movement)) ∧
    (∀ c : Controls,
      inputX c = c.movement.right - c.movement.left + c.touchMovement.x ∧
      inputZ c = c.movement.forward - c.movement.backward - c.touchMovement.z ∧
      inputY c = c.movement.up - c.movement.down) ∧
    (∀ (k : KeyCode) (c : Controls), keyTarget k = none →
      onKeyDown k c = c ∧ onKeyUp k c = c) := by
  refine ⟨applyKeyEvents_flag, fun c => ⟨rfl, rfl, rfl⟩, fun k c hk => ?_⟩
  unfold onKeyDown onKeyUp
  rw [hk]
  exact ⟨rfl, rfl⟩

/-- Witness for the hypothesis-bearing part of C7: the default switch
branch ignores an unrecognized code. -/
theorem key_flags_last_edge_witness :
    onKeyDown .unrecognizedKey (initControls cam0 false false) =
      initControls cam0 false false ∧
    onKeyUp .unrecognizedKey (initControls cam0 false false) =
      initControls cam0 false false :=
  key_flags_last_edge.2.2 .unrecognizedKey (initControls cam0 false false) rfl

/-- Press W, press ArrowUp, release W: ArrowUp is still held. -/
def aliasSeq : List KeyEvt := [.down .keyW, .down .arrowUp, .up .keyW]

/-- Counterexample to C7 as stated: after `aliasSeq` the ArrowUp key is
still held and maps to the `forward` flag, yet `movement.forward` is 0
(releasing W cleared it), so the flag is not 1 exactly when one of its
keys is held. -/
theorem key_flag_alias_cex :
    heldKey .arrowUp aliasSeq = true ∧
    keyTarget .arrowUp = some .forward ∧
    (applyKeyEvents aliasSeq
      (initControls cam0 false false)).movement.forward = 0 ∧
    (0 : ℝ) ≠ 1 :=
  ⟨rfl, rfl, rfl, by norm_num⟩

/-! ## C1: pitch clamping -/

/-- Multiplying by the identity quaternion on the right is the
identity. -/
theorem quatMul_one (q : Quat) : quatMul q ⟨0, 0, 0, 1⟩ = q := by
  unfold quatMul
  ext <;> dsimp <;> ring

/-- Evaluation of the gyro fusion at the sensor sample
`alpha = 0, beta = 180°, gamma = 0` with zero screen orientation and zero
look offset: the fused quaternion is the rotation by +90° about X, whose
YXZ pitch is exactly `π/2` — outside the clamp range of
`updateRotation`. -/
theorem fuse_beta180 (c : Controls)
    (hg : c.state.gyroEnabled = true)
    (hd : c.deviceOrientation = some ⟨some 0, some 180, some 0⟩)
    (hs : c.screenOrientation = 0)
    (hp : c.lookOffsetPitch = 0) (hy : c.lookOffsetYaw = 0) :
    (fuseOrientation c).camera.rotation = ⟨Real.pi / 2, 0, 0⟩ := by
  have h55 : Real.sqrt 0.5 * Real.sqrt 0.5 = 0.5 :=
    Real.mul_self_sqrt (by norm_num)
  have hquat : fuseTargetQuat ⟨some 0, some 180, some 0⟩ c =
      ⟨Real.sqrt 0.5, 0, 0, Real.sqrt 0.5⟩ := by
    unfold fuseTargetQuat setObjectQuaternion
    rw [hs, hp, hy]
    dsimp only [Option.getD]
    rw [show (180 : ℝ) * Real.pi / 180 = Real.pi from by ring,
      show (0 : ℝ) * Real.pi / 180 = 0 from by ring,
      neg_zero, quatFromEulerYXZ_zero,
      show quatFromEulerYXZ Real.pi 0 0 = ⟨1, 0, 0, 0⟩ from by
        unfold quatFromEulerYXZ
        rw [show Real.pi / 2 = Real.pi / 2 from rfl]
        norm_num [Real.sin_pi_div_two, Real.cos_pi_div_two],
      show quatFromAxisAngle ⟨0, 0, 1⟩ (0 : ℝ) = ⟨0, 0, 0, 1⟩ from by
        unfold quatFromAxisAngle
        norm_num,
      show quatMul ⟨1, 0, 0, 0⟩ ⟨-(Real.sqrt 0.5), 0, 0, Real.sqrt 0.5⟩ =
          ⟨Real.sqrt 0.5, 0, 0, Real.sqrt 0.5⟩ from by
        unfold quatMul
        ext <;> dsimp <;> ring,
      quatMul_one, quatMul_one]
  unfold fuseOrientation
  rw [hg, hd]
  dsimp only
  rw [hquat]
  unfold eulerFromQuatYXZ
  dsimp only
  rw [show (2 : ℝ) * (0 * 0 - Real.sqrt 0.5 * Real.sqrt 0.5) = -1 from by
      linear_combination (-2 : ℝ) * h55,
    if_neg (by rw [abs_neg, abs_one]; norm_num)]
  rw [show clampR (-1) (-1) 1 = (-1 : ℝ) from by
      unfold clampR; norm_num,
    neg_neg, Real.arcsin_one,
    show (2 : ℝ) * (Real.sqrt 0.5 * 0 - Real.sqrt 0.5 * 0) = 0 from by ring,
    show (1 : ℝ) - 2 * (0 * 0 + 0 * 0) = 1 from by ring]
  rw [show atan2 (-(0 : ℝ)) 1 = 0 from by
    unfold atan2
    norm_num [Real.arctan_zero]]

/-- The pitch written by `updateRotation` always lands in the closed clamp
range `[-π/2 + 0.05, π/2 - 0.05]`. -/
theorem updateRotation_pitch_bounds (c : Controls) :
    -(Real.pi / 2) + 0.05 ≤ (updateRotation c).camera.rotation.x ∧
    (updateRotation c).camera.rotation.x ≤ Real.pi / 2 - 0.05 := by
  have hlohi : -(Real.pi / 2) + 0.05 ≤ Real.pi / 2 - 0.05 := by
    nlinarith [Real.pi_gt_three]
  unfold updateRotation clampR
  dsimp only
  exact ⟨le_max_left _ _, max_le hlohi (min_le_left _ _)⟩

/-- C1 (amended): the pitch clamp is a property of the non-gyro
orientation driver only.  An `update` call that is not driven by the gyro
(gyro off, or no sensor sample yet) leaves the camera rotation unchanged,
and every mouse/touch look event clamps the camera pitch into
`[-π/2 + 0.05, π/2 - 0.05]`; so on the mouse/touch path the pitch stays
in the clamp range once it is there.  The gyro quaternion path performs
no such clamp (see the counterexample reaching pitch `π/2`). -/
theorem pitch_clamped_nongyro :
    (∀ (c : Controls) (delta : ℝ),
      c.state.gyroEnabled = false ∨ c.deviceOrientation = none →
      (update delta c).camera.rotation = c.camera.rotation) ∧
    (∀ (c : Controls) (mx my : ℝ), c.isPointerLocked = true →
      c.state.gyroEnabled = false →
      -(Real.pi / 2) + 0.05 ≤ (onMouseMove mx my c).camera.rotation.x ∧
      (onMouseMove mx my c).camera.rotation.x ≤ Real.pi / 2 - 0.05) ∧
    (∀ (c : Controls) (dx dy : ℝ), c.state.gyroEnabled = false →
      -(Real.pi / 2) + 0.05 ≤ (touchLookMove dx dy c).camera.rotation.x ∧
      (touchLookMove dx dy c).camera.rotation.x ≤ Real.pi / 2 - 0.05) := by
  refine ⟨fun c delta h => ?_, fun c mx my hl hg => ?_, fun c dx dy hg => ?_⟩
  · have hfuse : fuseOrientation c = c := by
      unfold fuseOrientation
      rcases h with h | h
      · rw [h]
      · rw [h]
        cases c.state.gyroEnabled <;> rfl
    unfold update
    rw [hfuse, collideStep_rotation, moveStep_rotation]
  · unfold onMouseMove
    rw [hl, hg]
    exact updateRotation_pitch_bounds _
  · unfold touchLookMove
    rw [hg]
    exact updateRotation_pitch_bounds _

/-- Witness for C1's amended statement: a non-gyro update keeps the
rotation, and a locked mouse move lands the pitch in the clamp range. -/
theorem pitch_clamped_nongyro_witness :
    (update 1 (initControls cam0 false false)).camera.rotation =
      (initControls cam0 false false).camera.rotation ∧
    (-(Real.pi / 2) + 0.05 ≤
      (onMouseMove 1 1 (onPointerLockChange true
        (initControls cam0 false false))).camera.rotation.x ∧
      (onMouseMove 1 1 (onPointerLockChange true
        (initControls cam0 false false))).camera.rotation.x ≤
        Real.pi / 2 - 0.05) :=
  ⟨pitch_clamped_nongyro.1 (initControls cam0 false false) 1 (Or.inl rfl),
   pitch_clamped_nongyro.2.1 (onPointerLockChange true
     (initControls cam0 false false)) 1 1 rfl rfl⟩

/-- An execution that enables gyro, receives a `beta = 180°` sensor event
and runs one frame. -/
def gyroPitchState : Controls :=
  update 1 (handleDeviceOrientation ⟨some 0, some 180, some 0⟩
    (setGyroEnabled true envFree (initControls cam0 true false)).1)

/-- Counterexample to C1 as stated: after this reachable `update(1)` call
the camera pitch is exactly `π/2`, which does not lie strictly within
`(-π/2 + ε, π/2 - ε)` for the code's ε = 0.05 (nor for any positive ε):
the gyro quaternion path does not clamp pitch. -/
theorem pitch_gyro_escapes_clamp :
    gyroPitchState.camera.rotation.x = Real.pi / 2 ∧
    ¬ (gyroPitchState.camera.rotation.x < Real.pi / 2 - 0.05) := by
  have hrot : gyroPitchState.camera.rotation = ⟨Real.pi / 2, 0, 0⟩ := by
    unfold gyroPitchState update
    rw [collideStep_rotation, moveStep_rotation]
    exact fuse_beta180 _ rfl rfl rfl rfl rfl
  refine ⟨by rw [hrot], ?_⟩
  rw [hrot]
  dsimp only
  intro hlt
  linarith

/-! ## C4: gyro round trip and the look-accumulator baseline -/

theorem setGyroEnabled_false_gyro (env : GyroEnv) (c : Controls) :
    (setGyroEnabled false env c).1.state.gyroEnabled = false := by
  unfold setGyroEnabled gyroProceed
  split <;> rfl

theorem setGyroEnabled_false_yaw (env : GyroEnv) (c : Controls) :
    (setGyroEnabled false env c).1.yaw = c.yaw := by
  unfold setGyroEnabled gyroProceed
  split <;> rfl

theorem setGyroEnabled_false_pitch (env : GyroEnv) (c : Controls) :
    (setGyroEnabled false env c).1.pitch = c.pitch := by
  unfold setGyroEnabled gyroProceed
  split <;> rfl

/-- A successful `setGyroEnabled(true)` captures the camera's current
yaw/pitch into the accumulators. -/
theorem setGyroEnabled_true_success (env : GyroEnv) (c : Controls)
    (h : (setGyroEnabled true env c).2 = true) :
    (setGyroEnabled true env c).1.yaw = c.camera.rotation.y ∧
    (setGyroEnabled true env c).1.pitch = c.camera.rotation.x := by
  unfold setGyroEnabled gyroProceed at h ⊢
  cases hav : c.state.gyroAvailable
  · rw [hav] at h
    exact absurd h (by simp)
  · rw [hav] at h
    cases hreq : env.hasRequestPermission
    · rw [hreq] at h
      exact ⟨rfl, rfl⟩
    · rw [hreq] at h
      cases hperm : env.permission
      · rw [hperm] at h
        exact ⟨rfl, rfl⟩
      · rw [hperm] at h
        exact absurd h (by simp)
      · rw [hperm] at h
        exact absurd h (by simp)

/-- C4 (amended): `setGyroEnabled(true)` then `setGyroEnabled(false)`
leaves `getState().gyroEnabled` false, and — when the enable succeeded —
the yaw/pitch accumulators that drive subsequent non-gyro look deltas
still hold the camera orientation captured at the moment gyro was
ENABLED: gyro-mode updates and the disable call never re-sync them, so
the first look delta after disabling resumes from the enable-time
orientation (and visibly snaps whenever the gyro moved the camera in
between — see the counterexample). -/
theorem gyro_roundtrip_baseline (c : Controls) (env1 env2 : GyroEnv)
    (delta : ℝ) :
    (getState (setGyroEnabled false env2 (update delta
      (setGyroEnabled true env1 c).1)).1).gyroEnabled = false ∧
    ((setGyroEnabled true env1 c).2 = true →
      (setGyroEnabled false env2 (update delta
        (setGyroEnabled true env1 c).1)).1.yaw = c.camera.rotation.y ∧
      (setGyroEnabled false env2 (update delta
        (setGyroEnabled true env1 c).1)).1.pitch = c.camera.rotation.x) := by
  refine ⟨setGyroEnabled_false_gyro env2 _, fun hsucc => ?_⟩
  have hcap := setGyroEnabled_true_success env1 c hsucc
  constructor
  · rw [setGyroEnabled_false_yaw, update_yaw, hcap.1]
  · rw [setGyroEnabled_false_pitch, update_pitch, hcap.2]

/-- Witness for C4's amended statement with a successful enable. -/
theorem gyro_roundtrip_baseline_witness :
    (getState (setGyroEnabled false envFree (update 1
      (setGyroEnabled true envFree (initControls cam0 true false)).1)).1).gyroEnabled =
        false ∧
    (setGyroEnabled false envFree (update 1
      (setGyroEnabled true envFree (initControls cam0 true false)).1)).1.yaw =
      (initControls cam0 true false).camera.rotation.y ∧
    (setGyroEnabled false envFree (update 1
      (setGyroEnabled true envFree (initControls cam0 true false)).1)).1.pitch =
      (initControls cam0 true false).camera.rotation.x :=
  ⟨(gyro_roundtrip_baseline (initControls cam0 true false) envFree envFree 1).1,
   (gyro_roundtrip_baseline (initControls cam0 true false) envFree envFree 1).2 rfl⟩

/-- Pointer lock engaged, then gyro enabled successfully. -/
def c4Enabled : Controls :=
  (setGyroEnabled true envFree (onPointerLockChange true
    (initControls cam0 true false))).1

/-- One gyro frame at `beta = 180°` turns the camera to pitch `π/2`; then
gyro is disabled. -/
def c4Dis : Controls :=
  (setGyroEnabled false envFree (update 1 (handleDeviceOrientation
    ⟨some 0, some 180, some 0⟩ c4Enabled))).1

/-- The first non-gyro look delta after disabling (a zero-delta mouse
move under pointer lock). -/
def c4After : Controls := onMouseMove 0 0 c4Dis

/-- Counterexample to C4 as stated: at the moment gyro was disabled the
camera held pitch `π/2`, yet the very next non-gyro look delta — even a
zero-movement one — rewrites the camera from the enable-time
accumulators and the pitch snaps to 0 ≠ `π/2`: look does not resume from
the orientation held at disable time. -/
theorem gyro_disable_snap_cex :
    (getState c4Dis).gyroEnabled = false ∧
    c4Dis.camera.rotation.x = Real.pi / 2 ∧
    c4After.camera.rotation.x = 0 ∧
    c4After.camera.rotation.x ≠ c4Dis.camera.rotation.x := by
  have hA : c4Dis.camera.rotation.x = Real.pi / 2 := by
    unfold c4Dis
    rw [setGyroEnabled_camera]
    unfold update
    rw [collideStep_rotation, moveStep_rotation]
    rw [fuse_beta180 _ rfl rfl rfl rfl rfl]
  have hB : c4After.camera.rotation.x = 0 := by
    unfold c4After onMouseMove
    rw [show c4Dis.isPointerLocked = true from rfl,
      show c4Dis.state.gyroEnabled = false from rfl]
    unfold updateRotation
    dsimp only
    rw [show c4Dis.pitch = (0 : ℝ) from rfl,
      show c4Dis.state.lookSpeed = (0.002 : ℝ) from rfl,
      show (0 : ℝ) - 0 * 0.002 = 0 from by norm_num]
    unfold clampR
    rw [min_eq_right (by nlinarith [Real.pi_gt_three] : (0 : ℝ) ≤ Real.pi / 2 - 0.05),
      max_eq_right (by nlinarith [Real.pi_gt_three] : -(Real.pi / 2) + 0.05 ≤ (0 : ℝ))]
  refine ⟨rfl, hA, hB, ?_⟩
  rw [hA, hB]
  intro h
  nlinarith [Real.pi_pos]

end WalkFly
